import Mathlib

/-!
# Bankable-AI — formal model of the analysis/synthesis pipeline

A shallow embedding of the score-synthesis core of the Bankable-AI
repository, together with theorems settling the specification claims.

Sources embedded (TypeScript):
* `src/synthesis/risk-synthesizer.ts` — risk-factor synthesis, the
  obvious-case pre-filter, and the remediation engine;
* `src/synthesis/score-calculator.ts` — bankability score and grade;
* `src/core/orchestrator.ts` — `executeWorkflow` (steps 2–4 of the
  pipeline; step 1's LLM agent fan-out is external and is represented by
  passing the collected insight list as a parameter);
* `src/core/message-bus.ts` — the request/respond/timeout protocol,
  modelled as explicit state passing.

Conventions: JavaScript `number` is modelled as `ℚ` (all arithmetic in
the embedded code paths is exact on rationals); `Math.round` is
`jsRound` (round half toward positive infinity, as in JS);
`Math.min/max` are `min`/`max`; fields that the embedded code never
reads (timestamps, presentation strings such as `explanation`,
`summary`, `rawMetric`, `interpretation`) are omitted from the
structures.  Division by zero follows Lean's total-division convention
`x / 0 = 0`; every theorem whose faithfulness depends on a divisor
being nonzero carries that positivity as an explicit hypothesis, and
the places where the JS code can actually produce a zero divisor
(`estimateDays` rounding to 0) are the subject of dedicated theorems.
`uuid()` and `crypto.randomUUID()` draws are modelled by an explicit
id-supply parameter `ℕ → String`, one fresh value per draw.
-/

namespace Bankable

/-- JavaScript `Math.round`: round half toward positive infinity. -/
def jsRound (q : ℚ) : ℤ := (q + 1/2).floor

theorem jsRound_eq_floor (q : ℚ) : jsRound q = ⌊q + 1/2⌋ := by
  rw [jsRound, Rat.floor_def', Rat.floor_def]

theorem jsRound_eq (q : ℚ) (z : ℤ) (h1 : (z : ℚ) ≤ q + 1/2) (h2 : q + 1/2 < z + 1) :
    jsRound q = z := by
  rw [jsRound_eq_floor]
  exact Int.floor_eq_iff.mpr ⟨h1, h2⟩

theorem jsRound_nonneg {q : ℚ} (h : 0 ≤ q) : 0 ≤ jsRound q := by
  rw [jsRound_eq_floor]
  have : ((0 : ℤ) : ℚ) ≤ q + 1/2 := by push_cast; linarith
  exact Int.le_floor.mpr this

theorem jsRound_le {q : ℚ} {z : ℤ} (h : q ≤ z) : jsRound q ≤ z := by
  rw [jsRound_eq_floor]
  have h2 : q + 1/2 < ((z + 1 : ℤ) : ℚ) := by push_cast; linarith
  have := Int.floor_lt.mpr h2
  omega

/-!
## Untyped JSON-like document data

`ParsedDocument.data` is a `Record<string, unknown>` in the source: an
untyped key/value tree.  We model it as a mutual inductive so that the
recursive extraction helpers are structurally recursive.
-/

mutual
/-- An untyped JSON-like value, as stored in `ParsedDocument.data`. -/
inductive Json where
  | num (q : ℚ)
  | str (s : String)
  | bool (b : Bool)
  | null
  | obj (fields : JsonFields)
  | arr (elems : JsonElems)
/-- The field list of a JSON object (insertion-ordered, keys unique). -/
inductive JsonFields where
  | nil
  | cons (key : String) (value : Json) (rest : JsonFields)
/-- The element list of a JSON array. -/
inductive JsonElems where
  | nil
  | cons (head : Json) (rest : JsonElems)
end

/-- Build a `JsonFields` from a Lean list (helper for concrete data). -/
def fieldsOf : List (String × Json) → JsonFields
  | [] => .nil
  | (k, v) :: rest => .cons k v (fieldsOf rest)

/-- JS property access `obj[key]` on an object literal. -/
def lookupField : JsonFields → String → Option Json
  | .nil, _ => none
  | .cons k v rest, key => if k = key then some v else lookupField rest key

/-- The key list `Object.keys(obj)` (insertion order). -/
def fieldKeys : JsonFields → List String
  | .nil => []
  | .cons k _ rest => k :: fieldKeys rest

/-- The year-key test `/^\d{4}$/.test(k)`. -/
def isYearKey (s : String) : Bool := s.length == 4 && s.toList.all Char.isDigit

/-- Numeric value of a digit string (for ordering year keys). -/
def digitsVal (s : String) : ℕ := s.toList.foldl (fun a c => a * 10 + (c.toNat - 48)) 0

/-- The idiom `Object.keys(data).filter(/^\d{4}$/).sort().reverse()`:
year keys in descending order.  JS sorts strings lexicographically;
on the filtered keys (all four-digit digit strings) lexicographic
order coincides with numeric order, which is what we sort by. -/
def sortYearsDesc (ks : List String) : List String :=
  List.insertionSort (fun a b : String => digitsVal b ≤ digitsVal a) (ks.filter isYearKey)

mutual
/-- `extractNestedValue(obj, key)` from `risk-synthesizer.ts` applied to
an arbitrary value (the source freely casts `unknown` to `Record`):
a direct numeric hit on `obj[key]`, else a depth-first scan of every
`typeof === 'object'` child (objects *and* arrays). -/
def extractNestedFromJson (key : String) : Json → Option ℚ
  | .obj fields =>
    match lookupField fields key with
    | some (.num q) => some q
    | _ => extractNestedScanFields key fields
  | .arr elems => extractNestedScanElems key elems
  | _ => none
/-- The `for (const k of Object.keys(obj))` scan of `extractNestedValue`. -/
def extractNestedScanFields (key : String) : JsonFields → Option ℚ
  | .nil => none
  | .cons _ v rest =>
    match extractNestedFromJson key v with
    | some q => some q
    | none => extractNestedScanFields key rest
/-- The same scan over the elements of an array child. -/
def extractNestedScanElems (key : String) : JsonElems → Option ℚ
  | .nil => none
  | .cons v rest =>
    match extractNestedFromJson key v with
    | some q => some q
    | none => extractNestedScanElems key rest
end

/-- `extractNestedValue` at its declared type (first argument a record). -/
def extractNestedValue (o : JsonFields) (key : String) : Option ℚ :=
  extractNestedFromJson key (.obj o)

/-- `extractLatestValue(data, ...keys)` from `risk-synthesizer.ts`: try
each key in the latest year-keyed sub-record first; if that finds
nothing (or there are no year keys), fall through to the flat search. -/
def extractLatestValue (data : Option JsonFields) (keys : List String) : Option ℚ :=
  match data with
  | none => none
  | some d =>
    let fromYear :=
      match sortYearsDesc (fieldKeys d) with
      | y :: _ =>
        match lookupField d y with
        | some latest => keys.findSome? (fun k => extractNestedFromJson k latest)
        | none => none
      | [] => none
    match fromYear with
    | some v => some v
    | none => keys.findSome? (fun k => extractNestedValue d k)

mutual
/-- `extractNumericValue(obj, key)` from the obvious-case section of
`risk-synthesizer.ts`, for a single key: a direct numeric hit, else a
depth-first scan that recurses only into plain-object children
(`!Array.isArray(nested)`). -/
def extractNumericOne (key : String) : Json → Option ℚ
  | .obj fields =>
    match lookupField fields key with
    | some (.num q) => some q
    | _ => extractNumericScanFields key fields
  | .arr elems => extractNumericScanElems key elems
  | _ => none
/-- The nested-object scan of `extractNumericValue` over object fields. -/
def extractNumericScanFields (key : String) : JsonFields → Option ℚ
  | .nil => none
  | .cons _ v rest =>
    match v with
    | .obj o =>
      match extractNumericOne key (.obj o) with
      | some q => some q
      | none => extractNumericScanFields key rest
    | _ => extractNumericScanFields key rest
/-- The nested-object scan over array elements (arrays themselves are
skipped by the `!Array.isArray` guard, plain-object elements are not). -/
def extractNumericScanElems (key : String) : JsonElems → Option ℚ
  | .nil => none
  | .cons v rest =>
    match v with
    | .obj o =>
      match extractNumericOne key (.obj o) with
      | some q => some q
      | none => extractNumericScanElems key rest
    | _ => extractNumericScanElems key rest
end

/-- `extractNumericValue(obj, ...keys)`: each key in turn gets a full
(direct + nested) search before the next key is tried. -/
def extractNumericValue (j : Json) (keys : List String) : Option ℚ :=
  keys.findSome? (fun k => extractNumericOne k j)

/-- `extractLatestNumericValue(data, ...keys)` from the obvious-case
section: if year keys exist the latest year's sub-record is searched
and the result returned as-is (no fall-through), otherwise the flat
record is searched. -/
def extractLatestNumericValue (data : JsonFields) (keys : List String) : Option ℚ :=
  match sortYearsDesc (fieldKeys data) with
  | y :: _ =>
    match lookupField data y with
    | some latest => extractNumericValue latest keys
    | none => none
  | [] => extractNumericValue (.obj data) keys


/-!
## Data model (`src/types/index.ts`)

Enumerations are closed as in the source; structures keep the fields
the embedded code reads (timestamps and presentation-only strings are
omitted, see the header).
-/

/-- `DocumentType` from `types/index.ts`. -/
inductive DocumentType where
  | profit_and_loss
  | balance_sheet
  | contract
  | bank_statement
  | tax_filing
  | insurance_certificate
  | other
  deriving DecidableEq, Repr

/-- `InsightCategory` from `types/index.ts`. -/
inductive InsightCategory where
  | financial_health
  | revenue_quality
  | legal_structure
  | contract_security
  | compliance_status
  | growth_trajectory
  | risk_exposure
  deriving DecidableEq, Repr

/-- `AgentId` from `types/index.ts`. -/
inductive AgentId where
  | counter
  | lawyer
  | forecaster
  deriving DecidableEq, Repr

/-- `ParsedDocument` (fields read by the pipeline; `data` is `Option`al
because the obvious-case validator guards against falsy `doc.data`). -/
structure ParsedDocument where
  id : String
  type : DocumentType
  data : Option JsonFields

/-- One entry of `StripeSnapshot.topCustomers`. -/
structure CustomerRevenue where
  customerId : String
  monthlyRevenue : ℚ
  percentOfTotal : ℚ
  deriving DecidableEq, Repr

/-- `StripeSnapshot` (fields read by the pipeline).  `mrr`,
`customerCount` and `churnRate` are `Option`al to reflect the
defensive `?? 0` / `!== undefined` guards in the source. -/
structure StripeSnapshot where
  mrr : Option ℚ
  customerCount : Option ℚ
  churnRate : Option ℚ
  topCustomers : List CustomerRevenue

/-- `CashFlowMetrics` from `types/index.ts`. -/
structure CashFlowMetrics where
  averageMonthlyInflow : ℚ
  averageMonthlyOutflow : ℚ
  burnRate : ℚ
  runwayMonths : ℚ
  deriving DecidableEq, Repr

/-- A bank account; only its presence in `accounts` is inspected. -/
structure BankAccount where
  accountId : String
  deriving DecidableEq, Repr

/-- `PlaidSnapshot` (fields read by the pipeline).  `transactions` is
only tested for presence (`!!plaid.transactions`), so it is modelled
as `Option Unit`; `cashFlow` is `Option`al for the `plaid?.cashFlow`
guard. -/
structure PlaidSnapshot where
  accounts : List BankAccount
  transactions : Option Unit
  cashFlow : Option CashFlowMetrics

/-- The `apiSnapshots` field of `GlobalContext`. -/
structure ApiSnapshots where
  stripe : Option StripeSnapshot
  plaid : Option PlaidSnapshot

/-- `AgentInsight` (fields read by the synthesizers). -/
structure AgentInsight where
  category : InsightCategory
  title : String
  impact : ℚ

/-- `GlobalContext` (fields read by the pipeline). -/
structure GlobalContext where
  sessionId : String
  companyId : String
  documents : List ParsedDocument
  apiSnapshots : ApiSnapshots
  agentInsights : List (AgentId × List AgentInsight)

/-- `RiskComponent` (sub-metric value and weight; the presentation
fields `rawMetric`/`interpretation` are omitted). -/
structure RiskComponent where
  name : String
  value : ℚ
  weight : ℚ

/-- `RiskFactor` (the `explanation` string is omitted). -/
structure RiskFactor where
  name : String
  score : ℚ
  weight : ℚ
  components : List RiskComponent

/-- `RiskFactorMap` from `types/index.ts`. -/
structure RiskFactorMap where
  serviceability : RiskFactor
  concentration : RiskFactor
  retention : RiskFactor
  compliance : RiskFactor

/-- The four factor keys, in the declaration order of `RiskFactorMap`
(this is the `Object.entries` iteration order in the source). -/
inductive FactorKey where
  | serviceability
  | concentration
  | retention
  | compliance
  deriving DecidableEq, Repr

/-- Field access `riskFactors[key]`. -/
def factorOf (rf : RiskFactorMap) : FactorKey → RiskFactor
  | .serviceability => rf.serviceability
  | .concentration => rf.concentration
  | .retention => rf.retention
  | .compliance => rf.compliance

/-- Position of a key in the `Object.entries` iteration order. -/
def factorIdx : FactorKey → ℕ
  | .serviceability => 0
  | .concentration => 1
  | .retention => 2
  | .compliance => 3

/-- Letter grades. -/
inductive Grade where
  | A
  | B
  | C
  | D
  | F
  deriving DecidableEq, Repr

/-- `ScorePenalty` from `types/index.ts`. -/
structure ScorePenalty where
  reason : String
  multiplier : ℚ
  impactPoints : ℤ
  deriving DecidableEq, Repr

/-- `BankabilityScore` (presentation fields omitted). -/
structure BankabilityScore where
  score : ℤ
  grade : Grade
  riskFactors : RiskFactorMap
  penalties : List ScorePenalty

/-- Difficulty tiers. -/
inductive Difficulty where
  | low
  | medium
  | high
  deriving DecidableEq, Repr

/-- Remediation task categories. -/
inductive TaskCategory where
  | quick_win
  | structural
  | strategic
  deriving DecidableEq, Repr

/-- `ScoreDrag` from `types/index.ts`. -/
structure ScoreDrag where
  factor : FactorKey
  currentScore : ℚ
  potentialScore : ℚ
  impactPoints : ℤ
  difficulty : Difficulty
  estimatedDays : ℤ
  deriving DecidableEq, Repr

/-- `RemediationTask` from `types/index.ts`. -/
structure RemediationTask where
  id : String
  priority : ℤ
  targetFactor : FactorKey
  title : String
  description : String
  expectedScoreGain : ℤ
  difficulty : Difficulty
  estimatedDays : ℤ
  category : TaskCategory
  actionItems : List String
  deriving DecidableEq, Repr

/-- One bucket of the roadmap timeline rollup. -/
structure TimelineBucket where
  tasks : ℕ
  days : ℤ
  scoreGain : ℤ
  deriving DecidableEq, Repr

/-- The `timeline` field of `RemediationRoadmap`. -/
structure Timeline where
  quickWins : TimelineBucket
  shortTerm : TimelineBucket
  longTerm : TimelineBucket
  deriving DecidableEq, Repr

/-- `RemediationRoadmap` (the `generatedAt` timestamp is omitted). -/
structure RemediationRoadmap where
  sessionId : String
  companyId : String
  currentScore : ℤ
  projectedScore : ℤ
  scoreDrags : List ScoreDrag
  tasks : List RemediationTask
  timeline : Timeline

/-!
## Risk synthesizer (`src/synthesis/risk-synthesizer.ts`)
-/

/-- Substring test `s.includes(needle)` on character lists. -/
def charsStartWith : List Char → List Char → Bool
  | _, [] => true
  | [], _ :: _ => false
  | h :: t, n :: m => h = n && charsStartWith t m

/-- Substring test `s.includes(needle)`. -/
def strContains (hay needle : String) : Bool :=
  go hay.toList needle.toList
where
  go : List Char → List Char → Bool
    | [], n => n.isEmpty
    | h :: t, n => charsStartWith (h :: t) n || go t n

/-- First match of the regex `/(\d+)\/100/` in a title, as a natural
number (`parseInt(match[1])`).  Because `\d+` is greedy and a shorter
digit run would be followed by another digit rather than `/`, only
maximal digit runs can match, so a left-to-right scan is faithful. -/
def matchScoreOutOf100 (s : String) : Option ℕ :=
  go s.toList
where
  go : List Char → Option ℕ
    | [] => none
    | c :: rest =>
      if c.isDigit then
        let run := (c :: rest).takeWhile Char.isDigit
        let tail := (c :: rest).dropWhile Char.isDigit
        if charsStartWith tail ['/', '1', '0', '0'] then
          some (run.foldl (fun a d => a * 10 + (d.toNat - 48)) 0)
        else go rest
      else go rest

/-- `calculateWeightedScore(components)`: weighted average of the
component values by their own weights (50 for an empty list). -/
def calculateWeightedScore (components : List RiskComponent) : ℚ :=
  match components with
  | [] => 50
  | _ =>
    let totalWeight := (components.map (·.weight)).sum
    (components.map (fun c => c.value * c.weight / totalWeight)).sum

/-- The document-fallback components of `synthesizeServiceability`
(the `else` branch taken when there is no Plaid cash-flow data). -/
def serviceabilityDocComponents (context : GlobalContext) : List RiskComponent :=
  let plDoc := context.documents.find? (fun d => d.type = .profit_and_loss)
  let bsDoc := context.documents.find? (fun d => d.type = .balance_sheet)
  let plData := plDoc.bind (·.data)
  let bsData := bsDoc.bind (·.data)
  if plData.isSome ∨ bsData.isSome then
    let netIncome := (extractLatestValue plData ["netIncome"]).getD 0
    let revenue := (extractLatestValue plData ["revenue"]).getD 1
    let totalAssets := (extractLatestValue bsData ["totalAssets", "assets"]).getD 1
    let totalLiabilities := (extractLatestValue bsData ["totalLiabilities", "liabilities"]).getD 0
    let equity := (extractLatestValue bsData ["totalEquity", "equity"]).getD 0
    let profitMargin := if revenue > 0 then netIncome / revenue else 0
    let profitScore :=
      min 100 (max 0 (if profitMargin > 0 then 60 + profitMargin * 400 else 40 + profitMargin * 200))
    let equityRatio := if totalAssets > 0 then equity / totalAssets else 0
    let equityScore :=
      min 100 (max 0 (if equityRatio ≥ 0.4 then 75 + equityRatio * 50 else equityRatio * 200))
    let debtRatio := if totalAssets > 0 then totalLiabilities / totalAssets else 1
    let debtScore := min 100 (max 0 ((1 - debtRatio) * 100))
    [⟨"Profitability", profitScore, 0.4⟩,
     ⟨"Equity Ratio", equityScore, 0.3⟩,
     ⟨"Debt Level", debtScore, 0.3⟩]
  else []

/-- `synthesizeServiceability(insights, context)`.  Note: unlike the
other three factors, the returned `score` is *not* clamped to
`[0, 100]` in the source. -/
def synthesizeServiceability (insights : List AgentInsight) (context : GlobalContext) :
    RiskFactor :=
  let relevantInsights := insights.filter (fun i =>
    i.category = .financial_health ∨ i.category = .risk_exposure)
  let plaid := context.apiSnapshots.plaid
  let base : List RiskComponent :=
    match plaid with
    | some p =>
      match p.cashFlow with
      | some cf =>
        let coverage := cf.averageMonthlyInflow / cf.averageMonthlyOutflow
        [⟨"Cash Flow Coverage", min 100 (coverage * 50), 0.4⟩]
      | none => serviceabilityDocComponents context
    | none => serviceabilityDocComponents context
  let withRunway : List RiskComponent :=
    base ++
      (match plaid with
       | some p =>
         match p.cashFlow with
         | some cf =>
           if cf.runwayMonths ≠ 0 then
             [⟨"Runway", min 100 (cf.runwayMonths * 5), 0.3⟩]
           else []
         | none => []
       | none => [])
  let avgImpact :=
    if relevantInsights.length > 0 then
      (relevantInsights.map (·.impact)).sum / relevantInsights.length
    else 0
  let components :=
    withRunway ++
      (if withRunway.length = 0 ∨ relevantInsights.length > 0 then
        [⟨"Financial Health Signals", 50 + avgImpact,
          if withRunway.length = 0 then 1.0 else 0.3⟩]
      else [])
  { name := "Serviceability"
    score := calculateWeightedScore components
    weight := 0.30
    components := components }

/-- `synthesizeConcentration(insights, context)`. -/
def synthesizeConcentration (insights : List AgentInsight) (context : GlobalContext) :
    RiskFactor :=
  let _relevantInsights := insights.filter (fun i => i.category = .revenue_quality)
  let components : List RiskComponent :=
    match context.apiSnapshots.stripe with
    | some stripe =>
      if stripe.topCustomers.length > 0 then
        let topCustomerPct := (stripe.topCustomers.head?.map (·.percentOfTotal)).getD 0
        let hhi := (stripe.topCustomers.map (fun c => c.percentOfTotal ^ 2)).sum
        [⟨"Top Customer Dependency", 100 - topCustomerPct * 100, 0.5⟩,
         ⟨"Revenue Diversification (HHI)", 100 - hhi * 100, 0.5⟩]
      else concentrationFallback context
    | none => concentrationFallback context
  let score := calculateWeightedScore components
  { name := "Concentration"
    score := max 0 (min 100 score)
    weight := 0.25
    components := components }
where
  /-- The document fallback of `synthesizeConcentration`. -/
  concentrationFallback (context : GlobalContext) : List RiskComponent :=
    let contractDocs := context.documents.filter (fun d => d.type = .contract)
    if contractDocs.length > 0 then
      [⟨"Contract Diversification", min 100 (50 + contractDocs.length * 10), 1.0⟩]
    else
      [⟨"Customer Concentration (estimated)", 60, 1.0⟩]

/-- `synthesizeRetention(insights, context)`. -/
def synthesizeRetention (insights : List AgentInsight) (context : GlobalContext) :
    RiskFactor :=
  let relevantInsights := insights.filter (fun i => i.category = .contract_security)
  let contractInsight := relevantInsights.find? (fun i => strContains i.title "Contract Strength")
  let c1 : List RiskComponent :=
    match contractInsight with
    | some i =>
      let strength : ℚ := ((matchScoreOutOf100 i.title).getD 50 : ℕ)
      [⟨"Contract Strength", strength, 0.5⟩]
    | none => []
  let c2 : List RiskComponent :=
    c1 ++
      (match context.apiSnapshots.stripe with
       | some stripe =>
         match stripe.churnRate with
         | some churn => [⟨"Revenue Retention", max 0 (100 - churn * 1000), 0.5⟩]
         | none => []
       | none => [])
  let c3 : List RiskComponent :=
    if c2.length = 0 then retentionTrendFallback context else c2
  let components : List RiskComponent :=
    if c3.length = 0 then [⟨"Revenue Retention (estimated)", 65, 1.0⟩] else c3
  let score := calculateWeightedScore components
  { name := "Retention"
    score := max 0 (min 100 score)
    weight := 0.25
    components := components }
where
  /-- The revenue-trend fallback of `synthesizeRetention` (empty when
  it does not apply, so the ultimate fallback can still fire). -/
  retentionTrendFallback (context : GlobalContext) : List RiskComponent :=
    match (context.documents.find? (fun d => d.type = .profit_and_loss)).bind (·.data) with
    | some data =>
      match sortYearsDesc (fieldKeys data) with
      | y0 :: y1 :: _ =>
        let latest := ((lookupField data y0).bind (extractNestedFromJson "revenue" ·)).getD 0
        let prior := ((lookupField data y1).bind (extractNestedFromJson "revenue" ·)).getD 0
        if prior > 0 then
          let growth := (latest - prior) / prior
          [⟨"Revenue Trend (retention proxy)", min 100 (max 0 (60 + growth * 100)), 1.0⟩]
        else []
      | _ => []
    | none => []

/-- `synthesizeCompliance(insights, context)`. -/
def synthesizeCompliance (insights : List AgentInsight) (context : GlobalContext) :
    RiskFactor :=
  let relevantInsights := insights.filter (fun i => i.category = .compliance_status)
  let complianceInsight := relevantInsights.find? (fun i => strContains i.title "Compliance Score")
  let c1 : List RiskComponent :=
    match complianceInsight with
    | some i =>
      let s : ℚ := ((matchScoreOutOf100 i.title).getD 50 : ℕ)
      [⟨"Regulatory Compliance", s, 0.6⟩]
    | none => [⟨"Regulatory Compliance (estimated)", 70, 0.6⟩]
  let docTypes := context.documents.map (·.type)
  let financialDocs : List DocumentType :=
    [.profit_and_loss, .balance_sheet, .tax_filing, .insurance_certificate]
  let presentDocs := financialDocs.filter (fun t => docTypes.contains t)
  let docScore : ℚ := min 100 ((presentDocs.length / 2 : ℚ) * 100)
  let components := c1 ++ [⟨"Documentation Completeness", docScore, 0.4⟩]
  let score := calculateWeightedScore components
  { name := "Compliance"
    score := max 0 (min 100 score)
    weight := 0.20
    components := components }

/-- `synthesizeRiskFactors(insights, context)`. -/
def synthesizeRiskFactors (insights : List AgentInsight) (context : GlobalContext) :
    RiskFactorMap :=
  { serviceability := synthesizeServiceability insights context
    concentration := synthesizeConcentration insights context
    retention := synthesizeRetention insights context
    compliance := synthesizeCompliance insights context }

/-!
## Obvious-case pre-filter (`risk-synthesizer.ts`, obvious-case section)
-/

/-- `ObviousCaseType`. -/
inductive ObviousCaseType where
  | no_data
  | empty_documents
  | all_negative
  | negative_equity
  | zero_revenue
  deriving DecidableEq, Repr

/-- `ObviousCaseResult` (the constant `isObvious: true` field is
implicit in the type). -/
structure ObviousCaseResult where
  caseType : ObviousCaseType
  score : BankabilityScore
  roadmap : RemediationRoadmap

/-- `isNoDataCase(context)`. -/
def isNoDataCase (context : GlobalContext) : Bool :=
  let hasDocuments := context.documents.length > 0
  let hasStripe :=
    match context.apiSnapshots.stripe with
    | some s => (s.mrr.getD 0) > 0 || (s.customerCount.getD 0) > 0
    | none => false
  let hasPlaid :=
    match context.apiSnapshots.plaid with
    | some p => p.accounts.length > 0 || p.transactions.isSome
    | none => false
  !hasDocuments && !hasStripe && !hasPlaid

/-- `isEmptyDocumentsCase(context)`. -/
def isEmptyDocumentsCase (context : GlobalContext) : Bool :=
  match context.documents with
  | [] => false
  | docs => docs.all (fun doc =>
      match doc.data with
      | none => true
      | some .nil => true
      | some (.cons _ _ _) => false)

/-- The key aliases tried for net income. -/
def netIncomeKeys : List String := ["netIncome", "net_income", "profit", "netProfit"]

/-- `isAllNegativeCase(context)`. -/
def isAllNegativeCase (context : GlobalContext) : Bool :=
  match (context.documents.find? (fun d => d.type = .profit_and_loss)).bind (·.data) with
  | none => false
  | some data =>
    let years := (fieldKeys data).filter isYearKey
    match years with
    | _ :: _ =>
      years.all (fun y =>
        match lookupField data y with
        | some yearData =>
          match extractNumericValue yearData netIncomeKeys with
          | some v => v < 0
          | none => false
        | none => false)
    | [] =>
      match extractNumericValue (.obj data) netIncomeKeys with
      | some v => v < 0
      | none => false

/-- `isNegativeEquityCase(context)`. -/
def isNegativeEquityCase (context : GlobalContext) : Bool :=
  match (context.documents.find? (fun d => d.type = .balance_sheet)).bind (·.data) with
  | none => false
  | some data =>
    let equity := extractLatestNumericValue data
      ["equity", "totalEquity", "total_equity", "shareholdersEquity"]
    let totalAssets := extractLatestNumericValue data ["totalAssets", "total_assets", "assets"]
    let totalLiabilities := extractLatestNumericValue data
      ["totalLiabilities", "total_liabilities", "liabilities"]
    match equity with
    | some e => if e < 0 then true else negEquityByBalance totalAssets totalLiabilities
    | none => negEquityByBalance totalAssets totalLiabilities
where
  /-- The liabilities-exceed-assets check. -/
  negEquityByBalance : Option ℚ → Option ℚ → Bool
    | some a, some l => l > a
    | _, _ => false

/-- `isZeroRevenueCase(context)`. -/
def isZeroRevenueCase (context : GlobalContext) : Bool :=
  match (context.documents.find? (fun d => d.type = .profit_and_loss)).bind (·.data) with
  | none => false
  | some data =>
    match extractLatestNumericValue data
        ["revenue", "totalRevenue", "total_revenue", "sales", "totalSales"] with
    | some v => v == 0
    | none => false

/-- The per-factor score overrides of a canned obvious-case result. -/
structure ObviousOverrides where
  serviceabilityOverride : Option ℚ := none
  concentrationOverride : Option ℚ := none
  retentionOverride : Option ℚ := none
  complianceOverride : Option ℚ := none

/-- `createMinimalRiskFactors(baseScore, options)`: equal-weighted
factors scored from the override or the base score. -/
def createMinimalRiskFactors (baseScore : ℚ) (options : ObviousOverrides) : RiskFactorMap :=
  let createFactor := fun (name : String) (override : Option ℚ) =>
    ({ name, score := override.getD baseScore, weight := 0.25, components := [] } : RiskFactor)
  { serviceability := createFactor "Serviceability" options.serviceabilityOverride
    concentration := createFactor "Concentration" options.concentrationOverride
    retention := createFactor "Retention" options.retentionOverride
    compliance := createFactor "Compliance" options.complianceOverride }

/-- `getTasksForCaseType(caseType)`: the canned remediation tasks. -/
def getTasksForCaseType : ObviousCaseType → List RemediationTask
  | .no_data =>
    [{ id := "upload-financials", priority := 100, targetFactor := .compliance,
       title := "Upload Financial Documents",
       description := "Upload P&L statements, balance sheets, or other financial records to enable analysis.",
       expectedScoreGain := 30, difficulty := .low, estimatedDays := 1,
       category := .quick_win,
       actionItems := ["Gather recent P&L statement (last 2-3 years)",
                       "Gather recent balance sheet",
                       "Upload documents to Bankable.ai"] },
     { id := "connect-apis", priority := 90, targetFactor := .serviceability,
       title := "Connect Financial APIs",
       description := "Connect Stripe or Plaid for real-time financial data integration.",
       expectedScoreGain := 20, difficulty := .low, estimatedDays := 1,
       category := .quick_win,
       actionItems := ["Connect Stripe account for payment data",
                       "Connect Plaid for banking data"] }]
  | .empty_documents =>
    [{ id := "upload-readable-docs", priority := 100, targetFactor := .compliance,
       title := "Upload Readable Financial Documents",
       description := "The uploaded documents could not be parsed. Please upload clear, machine-readable PDFs.",
       expectedScoreGain := 30, difficulty := .low, estimatedDays := 1,
       category := .quick_win,
       actionItems := ["Ensure documents are not scanned images",
                       "Export directly from accounting software as PDF",
                       "Re-upload with clearly formatted financial data"] }]
  | .all_negative =>
    [{ id := "cost-reduction", priority := 100, targetFactor := .serviceability,
       title := "Implement Cost Reduction Plan",
       description := "Identify and eliminate non-essential expenses to stop losses.",
       expectedScoreGain := 15, difficulty := .high, estimatedDays := 60,
       category := .structural,
       actionItems := ["Audit all operating expenses",
                       "Identify top 20% of costs",
                       "Negotiate vendor contracts",
                       "Consider headcount optimization"] },
     { id := "revenue-growth", priority := 90, targetFactor := .serviceability,
       title := "Revenue Growth Initiative",
       description := "Focus on increasing revenue to return to profitability.",
       expectedScoreGain := 20, difficulty := .high, estimatedDays := 90,
       category := .strategic,
       actionItems := ["Analyze pricing strategy",
                       "Identify upsell opportunities",
                       "Launch customer acquisition campaign"] }]
  | .negative_equity =>
    [{ id := "debt-restructuring", priority := 100, targetFactor := .serviceability,
       title := "Debt Restructuring",
       description := "Work with creditors to restructure debt obligations.",
       expectedScoreGain := 20, difficulty := .high, estimatedDays := 90,
       category := .structural,
       actionItems := ["List all outstanding debts",
                       "Prioritize debts by interest rate",
                       "Negotiate terms with creditors",
                       "Consider debt consolidation"] },
     { id := "capital-injection", priority := 90, targetFactor := .serviceability,
       title := "Seek Capital Injection",
       description := "Raise equity capital to restore positive net worth.",
       expectedScoreGain := 25, difficulty := .high, estimatedDays := 120,
       category := .strategic,
       actionItems := ["Prepare investor materials",
                       "Identify potential investors",
                       "Negotiate terms"] }]
  | .zero_revenue =>
    [{ id := "first-sale", priority := 100, targetFactor := .serviceability,
       title := "Achieve First Revenue",
       description := "Focus on closing first paying customers.",
       expectedScoreGain := 30, difficulty := .high, estimatedDays := 60,
       category := .strategic,
       actionItems := ["Define target customer profile",
                       "Build sales pipeline",
                       "Close first paying customer"] }]

/-- `createMinimalRoadmap(context, currentScore, caseType)`. -/
def createMinimalRoadmap (context : GlobalContext) (currentScore : ℤ)
    (caseType : ObviousCaseType) : RemediationRoadmap :=
  let tasks := getTasksForCaseType caseType
  { sessionId := context.sessionId
    companyId := context.companyId
    currentScore := currentScore
    projectedScore := min 100 (currentScore + 50)
    scoreDrags := []
    tasks := tasks
    timeline :=
      { quickWins := { tasks := (tasks.filter (·.category = .quick_win)).length,
                       days := 7, scoreGain := 10 }
        shortTerm := { tasks := (tasks.filter (·.category = .structural)).length,
                       days := 30, scoreGain := 20 }
        longTerm := { tasks := (tasks.filter (·.category = .strategic)).length,
                      days := 90, scoreGain := 20 } } }

/-- `createObviousResult(caseType, score, grade, context, options)`. -/
def createObviousResult (caseType : ObviousCaseType) (score : ℤ) (grade : Grade)
    (context : GlobalContext) (options : ObviousOverrides) : ObviousCaseResult :=
  let riskFactors := createMinimalRiskFactors (score : ℚ) options
  { caseType := caseType
    score := { score := score, grade := grade, riskFactors := riskFactors, penalties := [] }
    roadmap := createMinimalRoadmap context score caseType }

/-- `checkObviousCases(context)`: the pre-analysis validation layer,
returning `none` when full analysis should proceed. -/
def checkObviousCases (context : GlobalContext) : Option ObviousCaseResult :=
  if isNoDataCase context then
    some (createObviousResult .no_data 0 .F context {})
  else if isEmptyDocumentsCase context then
    some (createObviousResult .empty_documents 0 .F context {})
  else if isAllNegativeCase context then
    some (createObviousResult .all_negative 15 .F context { serviceabilityOverride := some 10 })
  else if isNegativeEquityCase context then
    some (createObviousResult .negative_equity 12 .F context { serviceabilityOverride := some 8 })
  else if isZeroRevenueCase context then
    some (createObviousResult .zero_revenue 5 .F context { serviceabilityOverride := some 5 })
  else none

/-!
## Score calculator (`src/synthesis/score-calculator.ts`)
-/

/-- `calculatePenalties(riskFactors)`: compliance, then serviceability,
then concentration, each independently checked. -/
def calculatePenalties (riskFactors : RiskFactorMap) : List ScorePenalty :=
  (if riskFactors.compliance.score < 40 then
    [{ reason := "Critical compliance gaps detected", multiplier := 0.8,
       impactPoints := jsRound ((1 - 0.8) * 100 * 0.2) }]
  else []) ++
  (if riskFactors.serviceability.score < 30 then
    [{ reason := "Cash flow insufficient to service obligations", multiplier := 0.7,
       impactPoints := jsRound ((1 - 0.7) * 100 * 0.3) }]
  else []) ++
  (if riskFactors.concentration.score < 25 then
    [{ reason := "Extreme revenue concentration risk", multiplier := 0.85,
       impactPoints := jsRound ((1 - 0.85) * 100 * 0.25) }]
  else [])

/-- The weighted raw score of `calculateBankabilityScore`. -/
def rawScoreOf (riskFactors : RiskFactorMap) : ℚ :=
  riskFactors.serviceability.score * riskFactors.serviceability.weight +
    riskFactors.concentration.score * riskFactors.concentration.weight +
    riskFactors.retention.score * riskFactors.retention.weight +
    riskFactors.compliance.score * riskFactors.compliance.weight

/-- `scoreToGrade(score)`. -/
def scoreToGrade (score : ℚ) : Grade :=
  if score ≥ 80 then .A
  else if score ≥ 65 then .B
  else if score ≥ 50 then .C
  else if score ≥ 35 then .D
  else .F

/-- `calculateBankabilityScore(riskFactors, context)` (the `context`
parameter is unused in the source body as well). -/
def calculateBankabilityScore (riskFactors : RiskFactorMap) (_context : GlobalContext) :
    BankabilityScore :=
  let rawScore := rawScoreOf riskFactors
  let penalties := calculatePenalties riskFactors
  let penaltyMultiplier := (penalties.map (·.multiplier)).foldl (· * ·) 1
  let finalScore := jsRound (max 0 (min 100 (rawScore * penaltyMultiplier)))
  { score := finalScore
    grade := scoreToGrade (finalScore : ℚ)
    riskFactors := riskFactors
    penalties := penalties }

/-!
## Remediation engine (`risk-synthesizer.ts`, remediation section)
-/

/-- The base difficulty table of `estimateDifficulty`. -/
def baseDifficulty : FactorKey → ℤ
  | .serviceability => 3
  | .concentration => 3
  | .retention => 2
  | .compliance => 1

/-- `estimateDifficulty(factor, gap)`. -/
def estimateDifficulty (factor : FactorKey) (gap : ℚ) : Difficulty :=
  let adjustedDifficulty := baseDifficulty factor + (if gap > 30 then 1 else 0)
  if adjustedDifficulty ≤ 1 then .low
  else if adjustedDifficulty ≤ 2 then .medium
  else .high

/-- The base-days table of `estimateDays`. -/
def baseDays : FactorKey → ℚ
  | .serviceability => 90
  | .concentration => 180
  | .retention => 60
  | .compliance => 14

/-- `estimateDays(factor, gap)`. -/
def estimateDays (factor : FactorKey) (gap : ℚ) : ℤ :=
  jsRound (baseDays factor * (gap / 50))

/-- `getDifficultyWeight(difficulty)`. -/
def getDifficultyWeight : Difficulty → ℚ
  | .low => 1
  | .medium => 2
  | .high => 3

/-- The sort key of the drag sort: `impactPoints / (estimatedDays ×
difficultyWeight)`.  In JS this is `NaN` when the denominator is zero
(then `impactPoints` is necessarily 0 too); here total division gives
0, and the faithfulness of the sorted order is only asserted under a
positive-denominator hypothesis. -/
def dragSortKey (d : ScoreDrag) : ℚ :=
  (d.impactPoints : ℚ) / ((d.estimatedDays : ℚ) * getDifficultyWeight d.difficulty)

/-- The divisor of the drag sort key. -/
def dragSortDenom (d : ScoreDrag) : ℚ :=
  (d.estimatedDays : ℚ) * getDifficultyWeight d.difficulty

/-- The drag built for a below-target factor (the body of the push in
`identifyScoreDrags`). -/
def dragFor (riskFactors : RiskFactorMap) (key : FactorKey) : ScoreDrag :=
  let factor := factorOf riskFactors key
  let gap := 75 - factor.score
  { factor := key
    currentScore := factor.score
    potentialScore := 75
    impactPoints := jsRound (gap * factor.weight)
    difficulty := estimateDifficulty key gap
    estimatedDays := estimateDays key gap }

/-- The drag list before sorting: one drag per factor strictly below
the target 75, in `Object.entries` order. -/
def identifyScoreDragsBase (riskFactors : RiskFactorMap) : List ScoreDrag :=
  [FactorKey.serviceability, .concentration, .retention, .compliance].filterMap (fun key =>
    if (factorOf riskFactors key).score < 75 then some (dragFor riskFactors key) else none)

/-- `identifyScoreDrags(riskFactors)`: drags sorted descending by
impact-per-effort.  `Array.prototype.sort` with the comparator
`bRatio - aRatio` is a stable sort, which (for a consistent
comparator) returns the unique stable descending order; we realize it
with a stable insertion sort. -/
def identifyScoreDrags (riskFactors : RiskFactorMap) : List ScoreDrag :=
  List.insertionSort (fun a b => dragSortKey b ≤ dragSortKey a)
    (identifyScoreDragsBase riskFactors)

/-- A task template from the `taskTemplates` table. -/
structure TaskTemplate where
  title : String
  description : String
  category : TaskCategory
  difficulty : Difficulty
  estimatedDays : ℤ

/-- The fixed template table of `generateTasksForDrag` (the constant
`actionItems` lists are elided; no claim inspects them and they are
carried verbatim from the table into the task). -/
def taskTemplates : FactorKey → List TaskTemplate
  | .serviceability =>
    [{ title := "Reduce operating expenses",
       description := "Identify and cut non-essential expenses to improve cash flow coverage.",
       category := .structural, difficulty := .medium, estimatedDays := 30 },
     { title := "Accelerate accounts receivable",
       description := "Reduce days sales outstanding (DSO) to improve cash position.",
       category := .quick_win, difficulty := .low, estimatedDays := 14 },
     { title := "Establish credit line",
       description := "Secure a revolving credit facility to buffer cash flow volatility.",
       category := .strategic, difficulty := .high, estimatedDays := 60 }]
  | .concentration =>
    [{ title := "Diversify customer base",
       description := "Reduce dependency on top customers by acquiring new clients.",
       category := .strategic, difficulty := .high, estimatedDays := 180 },
     { title := "Expand product offerings",
       description := "Create additional revenue streams to reduce single-product risk.",
       category := .strategic, difficulty := .high, estimatedDays := 120 }]
  | .retention =>
    [{ title := "Strengthen contract terms",
       description := "Renegotiate contracts to include longer notice periods and auto-renewal.",
       category := .structural, difficulty := .medium, estimatedDays := 45 },
     { title := "Reduce churn rate",
       description := "Implement customer success initiatives to improve retention.",
       category := .structural, difficulty := .medium, estimatedDays := 60 }]
  | .compliance =>
    [{ title := "Complete financial audit",
       description := "Engage auditors to produce certified financial statements.",
       category := .quick_win, difficulty := .low, estimatedDays := 30 },
     { title := "Update tax filings",
       description := "Ensure all tax returns are current and properly filed.",
       category := .quick_win, difficulty := .low, estimatedDays := 14 },
     { title := "Obtain adequate insurance",
       description := "Review and upgrade insurance coverage to meet requirements.",
       category := .quick_win, difficulty := .low, estimatedDays := 7 }]

/-- `generateTasksForDrag(drag, factor, context)` with the task ids
drawn from the supply starting at index `start` (`id: uuid()` in the
source; the `factor` and `context` parameters are unused there). -/
def generateTasksForDrag (drag : ScoreDrag) (uuidAt : ℕ → String) (start : ℕ) :
    List RemediationTask :=
  let templates := taskTemplates drag.factor
  let scoreGapPerTask : ℚ := (drag.impactPoints : ℚ) / templates.length
  templates.enum.map (fun (it : ℕ × TaskTemplate) =>
    { id := uuidAt (start + it.1)
      priority := 0
      targetFactor := drag.factor
      title := it.2.title
      description := it.2.description
      expectedScoreGain := jsRound scoreGapPerTask
      difficulty := it.2.difficulty
      estimatedDays := it.2.estimatedDays
      category := it.2.category
      actionItems := [] })

/-- `calculatePriority(task)`: `round(gain × 100 / (difficultyWeight ×
days))`. -/
def calculatePriority (task : RemediationTask) : ℤ :=
  jsRound ((task.expectedScoreGain * 100 : ℚ) /
    (getDifficultyWeight task.difficulty * task.estimatedDays))

/-- The per-drag expansion loop of `generateTasks`, threading the
uuid-supply index. -/
def generateTasksAux (uuidAt : ℕ → String) : List ScoreDrag → ℕ → List RemediationTask
  | [], _ => []
  | d :: rest, n =>
    let ts := generateTasksForDrag d uuidAt n
    ts ++ generateTasksAux uuidAt rest (n + ts.length)

/-- `generateTasks(scoreDrags, riskFactors, context)`: expand every
drag, then compute each task's priority. -/
def generateTasks (scoreDrags : List ScoreDrag) (uuidAt : ℕ → String) :
    List RemediationTask :=
  (generateTasksAux uuidAt scoreDrags 0).map (fun t => { t with priority := calculatePriority t })

/-- `calculateTimeline(tasks)`. -/
def calculateTimeline (tasks : List RemediationTask) : Timeline :=
  let quickWins := tasks.filter (fun t => t.estimatedDays ≤ 14)
  let shortTerm := tasks.filter (fun t => t.estimatedDays > 14 ∧ t.estimatedDays ≤ 60)
  let longTerm := tasks.filter (fun t => t.estimatedDays > 60)
  { quickWins := { tasks := quickWins.length,
                   days := (quickWins.map (·.estimatedDays)).foldr max 0,
                   scoreGain := (quickWins.map (·.expectedScoreGain)).sum }
    shortTerm := { tasks := shortTerm.length,
                   days := (shortTerm.map (·.estimatedDays)).foldr max 0,
                   scoreGain := (shortTerm.map (·.expectedScoreGain)).sum }
    longTerm := { tasks := longTerm.length,
                  days := (longTerm.map (·.estimatedDays)).foldr max 0,
                  scoreGain := (longTerm.map (·.expectedScoreGain)).sum } }

/-- `generateRemediationRoadmap(score, riskFactors, context)` with the
uuid draws supplied explicitly. -/
def generateRemediationRoadmap (score : BankabilityScore) (riskFactors : RiskFactorMap)
    (context : GlobalContext) (uuidAt : ℕ → String) : RemediationRoadmap :=
  let scoreDrags := identifyScoreDrags riskFactors
  let tasks := generateTasks scoreDrags uuidAt
  let sorted := List.insertionSort (fun a b => b.priority ≤ a.priority) tasks
  let projectedScore := min 100 (score.score + (sorted.map (·.expectedScoreGain)).sum)
  { sessionId := context.sessionId
    companyId := context.companyId
    currentScore := score.score
    projectedScore := projectedScore
    scoreDrags := scoreDrags
    tasks := sorted
    timeline := calculateTimeline sorted }

/-!
## Orchestrator (`src/core/orchestrator.ts`)
-/

/-- `executeWorkflow(context)` from `orchestrator.ts`, with the insight
list collected from the agent fan-out passed as a parameter (the
agents are external LLM calls).  The source body runs: synthesize →
calculate → roadmap, in that order, and — notably — contains no call
to `checkObviousCases`. -/
def executeWorkflow (context : GlobalContext) (insights : List AgentInsight)
    (uuidAt : ℕ → String) : BankabilityScore × RemediationRoadmap :=
  let riskFactors := synthesizeRiskFactors insights context
  let score := calculateBankabilityScore riskFactors context
  let roadmap := generateRemediationRoadmap score riskFactors context uuidAt
  (score, roadmap)

/-!
## Message bus (`src/core/message-bus.ts`)

The bus is stateful and asynchronous; we model its observable state
(the append-only message log and the pending-request correlation ids)
and the three relevant transitions — `request`, the timeout firing,
and `respond` — as explicit state-passing functions.  Timer *durations*
are not modelled: the timeout transition is the event that fires when
the timer elapses.
-/

/-- A message recipient: a named task or the broadcast channel. -/
inductive Recipient where
  | agent (id : AgentId)
  | broadcast
  deriving DecidableEq, Repr

/-- `MessageType` from `message-bus.ts`. -/
inductive MessageType where
  | insight_update
  | data_request
  | data_response
  | contradiction_alert
  | priority_signal
  deriving DecidableEq, Repr

/-- A bus message (the payload is kept opaque as a `String`; the
auto-generated `id` and `timestamp` fields are omitted — `id` is a
fresh random UUID per send and nothing in the protocol reads it). -/
structure BusMessage where
  sender : AgentId
  recipient : Recipient
  type : MessageType
  payload : String
  correlationId : Option String
  deriving DecidableEq, Repr

/-- The observable state of a `MessageBus`: the append-only
`messageLog` and the correlation ids of `pendingRequests`. -/
structure BusState where
  messageLog : List BusMessage
  pending : List String
  deriving DecidableEq, Repr

/-- `send(message)`: append to the log (delivery to subscribers does
not change the bus state). -/
def busSend (s : BusState) (m : BusMessage) : BusState :=
  { s with messageLog := s.messageLog ++ [m] }

/-- The synchronous part of `request(from, to, type, payload,
timeoutMs)`: register the pending entry under the fresh correlation
id, then send the correlated message. -/
def busRequest (s : BusState) (sender target : AgentId) (type : MessageType)
    (payload : String) (correlationId : String) : BusState :=
  let s1 := { s with pending := correlationId :: s.pending }
  busSend s1 { sender := sender, recipient := .agent target, type := type,
               payload := payload, correlationId := some correlationId }

/-- The outcome delivered to a requester's promise. -/
inductive RequestOutcome where
  | timedOut
  | resolved (response : BusMessage)
  deriving DecidableEq, Repr

/-- The timeout callback of `request`: delete the pending entry and
reject the promise with the timeout error. -/
def busTimeout (s : BusState) (correlationId : String) : BusState × RequestOutcome :=
  ({ s with pending := s.pending.erase correlationId }, .timedOut)

/-- Errors thrown synchronously by `respond`. -/
inductive RespondError where
  | missingCorrelationId
  deriving DecidableEq, Repr

/-- `respond(originalMessage, from, payload)`: throws without a
correlation id; otherwise clears the pending entry if present, always
emits the response message, and resolves the waiting requester only if
the entry was still pending (a late respond resolves nobody). -/
def busRespond (s : BusState) (originalMessage : BusMessage) (sender : AgentId)
    (payload : String) : Except RespondError (BusState × Option RequestOutcome) :=
  match originalMessage.correlationId with
  | none => .error .missingCorrelationId
  | some cid =>
    let s1 := if cid ∈ s.pending then { s with pending := s.pending.erase cid } else s
    let response : BusMessage :=
      { sender := sender, recipient := .agent originalMessage.sender,
        type := .data_response, payload := payload, correlationId := some cid }
    let s2 := busSend s1 response
    .ok (s2, if cid ∈ s.pending then some (.resolved response) else none)

/-!
## Shared concrete inputs for witnesses and counterexamples
-/

/-- A factor with the given score and weight and no components. -/
def mkFactor (name : String) (score weight : ℚ) : RiskFactor :=
  { name := name, score := score, weight := weight, components := [] }

/-- A context with no documents and no snapshots. -/
def ctxEmpty : GlobalContext :=
  { sessionId := "session-0", companyId := "company-0", documents := []
    apiSnapshots := { stripe := none, plaid := none }, agentInsights := [] }

/-- Rank of a grade, `F = 0 < D < C < B < A = 4`. -/
def gradeRank : Grade → ℕ
  | .F => 0
  | .D => 1
  | .C => 2
  | .B => 3
  | .A => 4

/-- C5: the letter grade is a pure, total, monotonically non-decreasing
step function of the score, with inclusive lower-bound thresholds
`≥ 80 → A`, `≥ 65 → B`, `≥ 50 → C`, `≥ 35 → D`, else `F`; in
particular `80 ↦ A`, `79 ↦ B`, `50 ↦ C`, `49 ↦ D`, `0 ↦ F`. -/
theorem scoreToGrade_monotone_step_thresholds :
    (∀ s t : ℚ, s ≤ t → gradeRank (scoreToGrade s) ≤ gradeRank (scoreToGrade t)) ∧
    (∀ s : ℚ,
      (scoreToGrade s = .A ↔ 80 ≤ s) ∧
      (scoreToGrade s = .B ↔ 65 ≤ s ∧ s < 80) ∧
      (scoreToGrade s = .C ↔ 50 ≤ s ∧ s < 65) ∧
      (scoreToGrade s = .D ↔ 35 ≤ s ∧ s < 50) ∧
      (scoreToGrade s = .F ↔ s < 35)) ∧
    scoreToGrade 80 = .A ∧ scoreToGrade 79 = .B ∧ scoreToGrade 50 = .C ∧
    scoreToGrade 49 = .D ∧ scoreToGrade 0 = .F := by
  refine ⟨?_, ?_, ?_, ?_, ?_, ?_, ?_⟩
  · intro s t hst
    unfold scoreToGrade
    split_ifs <;> simp [gradeRank] <;> linarith
  · intro s
    unfold scoreToGrade
    refine ⟨?_, ?_, ?_, ?_, ?_⟩ <;> split_ifs <;> simp_all <;>
      first
        | linarith
        | (intro _; linarith)
  all_goals norm_num [scoreToGrade]

/-- Witness for C5: the monotonicity clause applied at `79 ≤ 80`. -/
theorem scoreToGrade_monotone_step_thresholds_witness :
    gradeRank (scoreToGrade 79) ≤ gradeRank (scoreToGrade 80) :=
  scoreToGrade_monotone_step_thresholds.1 79 80 (by norm_num)

/-- C4: for every `RiskFactorMap` whose four weights sum to 1, the
calculator returns `round(clamp(raw × Π penalties, 0, 100))` and the
result lies in `[0, 100]`. -/
theorem calculateBankabilityScore_clamped_round (rf : RiskFactorMap) (ctx : GlobalContext)
    (hw : rf.serviceability.weight + rf.concentration.weight +
      rf.retention.weight + rf.compliance.weight = 1) :
    (calculateBankabilityScore rf ctx).score =
      jsRound (max 0 (min 100 (rawScoreOf rf *
        (((calculateBankabilityScore rf ctx).penalties.map (·.multiplier)).foldl (· * ·) 1)))) ∧
    0 ≤ (calculateBankabilityScore rf ctx).score ∧
    (calculateBankabilityScore rf ctx).score ≤ 100 := by
  refine ⟨rfl, ?_, ?_⟩
  · exact jsRound_nonneg (le_max_left _ _)
  · apply jsRound_le
    exact max_le (by norm_num) (min_le_left _ _)

/-- The standard-weight factor map used as a concrete witness input. -/
def witnessMap : RiskFactorMap :=
  { serviceability := mkFactor "Serviceability" 82 0.3
    concentration := mkFactor "Concentration" 71 0.25
    retention := mkFactor "Retention" 64 0.25
    compliance := mkFactor "Compliance" 55 0.2 }

/-- Witness for C4 at a concrete map with weights summing to 1. -/
theorem calculateBankabilityScore_clamped_round_witness :
    0 ≤ (calculateBankabilityScore witnessMap ctxEmpty).score ∧
    (calculateBankabilityScore witnessMap ctxEmpty).score ≤ 100 :=
  (calculateBankabilityScore_clamped_round witnessMap ctxEmpty
    (by norm_num [witnessMap, mkFactor])).2

/-- The factor map of the penalty-composition scenario:
scores {serviceability 25, concentration 20, retention 60,
compliance 35} at the standard weights. -/
def penaltyCaseMap : RiskFactorMap :=
  { serviceability := mkFactor "Serviceability" 25 0.3
    concentration := mkFactor "Concentration" 20 0.25
    retention := mkFactor "Retention" 60 0.25
    compliance := mkFactor "Compliance" 35 0.2 }

/-- C2 counterexample: on the stated input the final score is 16, not
`round(raw × 0.7 × 0.8) = 19`, because the concentration penalty
(20 < 25, ×0.85) also fires. -/
theorem penaltyCase_not_two_penalties :
    (calculateBankabilityScore penaltyCaseMap ctxEmpty).score = 16 ∧
    jsRound (rawScoreOf penaltyCaseMap * (0.7 * 0.8)) = 19 ∧
    (calculateBankabilityScore penaltyCaseMap ctxEmpty).score ≠
      jsRound (rawScoreOf penaltyCaseMap * (0.7 * 0.8)) := by
  have hraw : rawScoreOf penaltyCaseMap = 69/2 := by
    norm_num [rawScoreOf, penaltyCaseMap, mkFactor]
  have hmul : ((calculatePenalties penaltyCaseMap).map (·.multiplier)).foldl (· * ·) 1 =
      (119/250 : ℚ) := by
    norm_num [calculatePenalties, penaltyCaseMap, mkFactor]
  have hscore : (calculateBankabilityScore penaltyCaseMap ctxEmpty).score = 16 := by
    show jsRound (max 0 (min 100 (rawScoreOf penaltyCaseMap *
      ((calculatePenalties penaltyCaseMap).map (·.multiplier)).foldl (· * ·) 1))) = 16
    rw [hraw, hmul]
    apply jsRound_eq <;> norm_num
  refine ⟨hscore, ?_, ?_⟩
  · rw [hraw]
    apply jsRound_eq <;> norm_num
  · rw [hscore, hraw]
    have : jsRound ((69/2 : ℚ) * (0.7 * 0.8)) = 19 := by
      apply jsRound_eq <;> norm_num
    rw [this]
    decide

/-- C2 amended: on the stated input all three penalty rules fire
(compliance 35 < 40, serviceability 25 < 30, and also concentration
20 < 25), and the final score is `round(raw × 0.8 × 0.7 × 0.85) = 16`. -/
theorem penaltyCase_three_penalties :
    ((calculatePenalties penaltyCaseMap).map (·.multiplier)) = [0.8, 0.7, 0.85] ∧
    (calculateBankabilityScore penaltyCaseMap ctxEmpty).score =
      jsRound (rawScoreOf penaltyCaseMap * (0.8 * 0.7 * 0.85)) ∧
    (calculateBankabilityScore penaltyCaseMap ctxEmpty).score = 16 := by
  have hraw : rawScoreOf penaltyCaseMap = 69/2 := by
    norm_num [rawScoreOf, penaltyCaseMap, mkFactor]
  have hmul : ((calculatePenalties penaltyCaseMap).map (·.multiplier)).foldl (· * ·) 1 =
      (119/250 : ℚ) := by
    norm_num [calculatePenalties, penaltyCaseMap, mkFactor]
  have hscore : (calculateBankabilityScore penaltyCaseMap ctxEmpty).score = 16 := by
    show jsRound (max 0 (min 100 (rawScoreOf penaltyCaseMap *
      ((calculatePenalties penaltyCaseMap).map (·.multiplier)).foldl (· * ·) 1))) = 16
    rw [hraw, hmul]
    apply jsRound_eq <;> norm_num
  refine ⟨?_, ?_, hscore⟩
  · norm_num [calculatePenalties, penaltyCaseMap, mkFactor]
  · rw [hscore, hraw]
    symm
    apply jsRound_eq <;> norm_num

/-- A single financial-health insight with impact 60 (inside the
documented −100..+100 impact range of `AgentInsight`). -/
def highImpactInsight : AgentInsight :=
  { category := .financial_health, title := "Exceptional cash generation", impact := 60 }

/-- C3 counterexample: with one impact-60 financial-health insight and
an otherwise empty context, the serviceability factor scores 110 —
outside [0, 100] — because `synthesizeServiceability` (alone among the
four reducers) does not clamp its weighted average. -/
theorem serviceability_score_escapes_range :
    (synthesizeRiskFactors [highImpactInsight] ctxEmpty).serviceability.score = 110 ∧
    ¬ ((synthesizeRiskFactors [highImpactInsight] ctxEmpty).serviceability.score ≤ 100) := by
  have h : (synthesizeRiskFactors [highImpactInsight] ctxEmpty).serviceability.score = 110 := by
    show (synthesizeServiceability [highImpactInsight] ctxEmpty).score = 110
    norm_num [synthesizeServiceability, serviceabilityDocComponents, ctxEmpty,
      highImpactInsight, calculateWeightedScore, List.filter]
  exact ⟨h, by rw [h]; norm_num⟩

/-- C3 amended: every factor's score is the weighted average of its
components' values by their own weights (`calculateWeightedScore`);
concentration, retention and compliance additionally clamp the average
to [0, 100], but serviceability returns it unclamped (and can
therefore leave the range). -/
theorem riskFactor_scores_weighted_average (insights : List AgentInsight)
    (ctx : GlobalContext) :
    (synthesizeRiskFactors insights ctx).serviceability.score =
      calculateWeightedScore (synthesizeRiskFactors insights ctx).serviceability.components ∧
    (synthesizeRiskFactors insights ctx).concentration.score =
      max 0 (min 100
        (calculateWeightedScore (synthesizeRiskFactors insights ctx).concentration.components)) ∧
    (synthesizeRiskFactors insights ctx).retention.score =
      max 0 (min 100
        (calculateWeightedScore (synthesizeRiskFactors insights ctx).retention.components)) ∧
    (synthesizeRiskFactors insights ctx).compliance.score =
      max 0 (min 100
        (calculateWeightedScore (synthesizeRiskFactors insights ctx).compliance.components)) :=
  ⟨rfl, rfl, rfl, rfl⟩

/-- C9: a context with no documents and no informative snapshot fields
(a payment snapshot may be present with non-positive `mrr` and
`customerCount`; a banking snapshot may be present with no accounts
and no transactions summary) is classified `no_data` with score 0 and
grade F, regardless of the insight content carried by the context. -/
theorem checkObviousCases_no_data (ctx : GlobalContext)
    (hdocs : ctx.documents = [])
    (hstripe : ∀ s, ctx.apiSnapshots.stripe = some s →
      s.mrr.getD 0 ≤ 0 ∧ s.customerCount.getD 0 ≤ 0)
    (hplaid : ∀ p, ctx.apiSnapshots.plaid = some p →
      p.accounts = [] ∧ p.transactions = none) :
    ∃ r, checkObviousCases ctx = some r ∧ r.caseType = .no_data ∧
      r.score.score = 0 ∧ r.score.grade = .F := by
  have hnd : isNoDataCase ctx = true := by
    unfold isNoDataCase
    simp only [hdocs]
    rcases hs : ctx.apiSnapshots.stripe with _ | s
    · rcases hp : ctx.apiSnapshots.plaid with _ | p
      · simp
      · obtain ⟨ha, ht⟩ := hplaid p hp
        simp [ha, ht]
    · obtain ⟨hm, hc⟩ := hstripe s hs
      rcases hp : ctx.apiSnapshots.plaid with _ | p
      · simp
        constructor <;> linarith
      · obtain ⟨ha, ht⟩ := hplaid p hp
        simp [ha, ht]
        constructor <;> linarith
  refine ⟨createObviousResult .no_data 0 .F ctx {}, ?_, rfl, rfl, rfl⟩
  unfold checkObviousCases
  rw [if_pos hnd]

/-- A context carrying an empty payment snapshot, an account-less and
transaction-less banking snapshot, and a nonempty insight log. -/
def ctxEmptySnapshots : GlobalContext :=
  { sessionId := "session-9", companyId := "company-9", documents := []
    apiSnapshots :=
      { stripe := some { mrr := some 0, customerCount := some 0, churnRate := none,
                         topCustomers := [] }
        plaid := some { accounts := [], transactions := none, cashFlow := none } }
    agentInsights := [(.counter, [highImpactInsight])] }

/-- Witness for C9 at the concrete context of the claim. -/
theorem checkObviousCases_no_data_witness :
    ∃ r, checkObviousCases ctxEmptySnapshots = some r ∧ r.caseType = .no_data ∧
      r.score.score = 0 ∧ r.score.grade = .F := by
  apply checkObviousCases_no_data ctxEmptySnapshots rfl
  · intro s hs
    simp only [ctxEmptySnapshots, Option.some_inj] at hs
    subst hs
    norm_num
  · intro p hp
    simp only [ctxEmptySnapshots, Option.some_inj] at hp
    subst hp
    exact ⟨rfl, rfl⟩

/-- A factor map whose only below-target factor is compliance at 74. -/
def complianceGapMap : RiskFactorMap :=
  { serviceability := mkFactor "Serviceability" 80 0.3
    concentration := mkFactor "Concentration" 80 0.25
    retention := mkFactor "Retention" 80 0.25
    compliance := mkFactor "Compliance" 74 0.2 }

/-- The drag the engine produces for compliance at score 74: its
`estimatedDays` is `round(14 × 1/50) = 0`. -/
def complianceDrag74 : ScoreDrag :=
  { factor := .compliance, currentScore := 74, potentialScore := 75,
    impactPoints := 0, difficulty := .low, estimatedDays := 0 }

/-- Evaluation of the drag list at `complianceGapMap` (shared by the
claims about day estimation and drag sorting). -/
theorem drags_at_complianceGapMap :
    identifyScoreDrags complianceGapMap = [complianceDrag74] := by
  have h1 : (75 : ℚ) - 74 = 1 := by norm_num
  have hdays : estimateDays .compliance 1 = 0 := by
    rw [estimateDays]
    apply jsRound_eq <;> norm_num [baseDays]
  have himp : jsRound (1 * (0.2 : ℚ)) = 0 := by
    apply jsRound_eq <;> norm_num
  have hdiff : estimateDifficulty .compliance 1 = .low := by
    norm_num [estimateDifficulty, baseDifficulty]
  have hbase : identifyScoreDragsBase complianceGapMap = [complianceDrag74] := by
    unfold identifyScoreDragsBase
    norm_num [complianceGapMap, mkFactor, factorOf, dragFor, h1, hdays, himp, hdiff,
      complianceDrag74]
    rw [List.filterMap_cons]
    norm_num [complianceDrag74, dragFor, factorOf, complianceGapMap, mkFactor, h1, hdays, hdiff]
    apply jsRound_eq <;> norm_num
  rw [identifyScoreDrags, hbase]
  rfl

/-- C10 counterexample: for a compliance factor at score 74 (gap 1),
the generated drag has `estimatedDays = 0` — so the impact-per-effort
divisor `estimatedDays × difficultyWeight` is 0 and the drag-sort
ratio is a division by zero (`0/0`, `NaN` in JS), contrary to the
claimed strict positivity. -/
theorem estimateDays_zero_at_compliance_74 :
    identifyScoreDrags complianceGapMap = [complianceDrag74] ∧
    ¬ (∀ d ∈ identifyScoreDrags complianceGapMap, 0 < d.estimatedDays) ∧
    dragSortDenom complianceDrag74 = 0 := by
  have hsorted := drags_at_complianceGapMap
  refine ⟨hsorted, ?_, ?_⟩
  · intro hall
    have := hall complianceDrag74 (by rw [hsorted]; exact List.mem_singleton_self _)
    simp [complianceDrag74] at this
  · norm_num [dragSortDenom, complianceDrag74]

/-- C10 amended: a drag's `estimatedDays = round(baseDays × gap/50)` is
strictly positive exactly when `baseDays × gap ≥ 25` (for compliance,
gap 1 gives 0); by contrast the task-priority divisor is always
positive, because template task day counts are fixed positive
constants. -/
theorem estimateDays_positive_iff :
    (∀ (k : FactorKey) (gap : ℚ), 0 < estimateDays k gap ↔ 25 ≤ baseDays k * gap) ∧
    (∀ (drag : ScoreDrag) (uuidAt : ℕ → String) (start : ℕ),
      ((generateTasksForDrag drag uuidAt start).map (·.estimatedDays)).all (0 < ·) = true) := by
  constructor
  · intro k gap
    rw [estimateDays, jsRound_eq_floor]
    constructor
    · intro h
      have h1 : (1 : ℤ) ≤ ⌊baseDays k * (gap / 50) + 1 / 2⌋ := h
      have h2 : ((1 : ℤ) : ℚ) ≤ baseDays k * (gap / 50) + 1 / 2 := Int.le_floor.mp h1
      push_cast at h2
      nlinarith
    · intro h
      have h2 : ((1 : ℤ) : ℚ) ≤ baseDays k * (gap / 50) + 1 / 2 := by
        push_cast
        nlinarith
      have := Int.le_floor.mpr h2
      omega
  · intro drag uuidAt start
    cases h : drag.factor <;>
      simp [generateTasksForDrag, taskTemplates, h, List.enum, List.enumFrom]

/-!
## Drag-sort order (stability of the descending insertion sort)
-/

section DragSortOrder

variable {α : Type} (K : α → ℚ) (idx : α → ℕ)

/-- The strict lexicographic order "key strictly larger, or equal key
and originally earlier" realized by a stable descending sort. -/
def keyLex (a b : α) : Prop :=
  K b < K a ∨ (K a = K b ∧ idx a < idx b)

theorem keyLex_orderedInsert (x : α) (l : List α)
    (hl : l.Pairwise (keyLex K idx)) (hx : ∀ y ∈ l, idx x < idx y) :
    (List.orderedInsert (fun a b => K b ≤ K a) x l).Pairwise (keyLex K idx) := by
  induction l with
  | nil => simp [List.orderedInsert]
  | cons y ys ih =>
    rw [List.orderedInsert]
    split_ifs with h
    · refine List.Pairwise.cons ?_ hl
      intro z hz
      rcases List.mem_cons.mp hz with rfl | hzys
      · rcases lt_or_eq_of_le h with h' | h'
        · exact Or.inl h'
        · exact Or.inr ⟨h'.symm, hx z (List.mem_cons_self _ _)⟩
      · have hyz := (List.pairwise_cons.mp hl).1 z hzys
        rcases hyz with h' | ⟨he, _⟩
        · rcases lt_or_eq_of_le (le_trans (le_of_lt h') h) with h'' | h''
          · exact Or.inl h''
          · exact Or.inr ⟨h''.symm, hx z (List.mem_cons_of_mem _ hzys)⟩
        · rcases lt_or_eq_of_le (le_trans (le_of_eq he.symm) h) with h'' | h''
          · exact Or.inl h''
          · exact Or.inr ⟨h''.symm, hx z (List.mem_cons_of_mem _ hzys)⟩
    · push_neg at h
      refine List.Pairwise.cons ?_
        (ih (List.pairwise_cons.mp hl).2 (fun z hz => hx z (List.mem_cons_of_mem _ hz)))
      intro z hz
      rcases (List.mem_orderedInsert _).mp hz with rfl | hzys
      · exact Or.inl h
      · exact (List.pairwise_cons.mp hl).1 z hzys

theorem keyLex_insertionSort (l : List α) (hl : l.Pairwise (fun a b => idx a < idx b)) :
    (List.insertionSort (fun a b => K b ≤ K a) l).Pairwise (keyLex K idx) := by
  induction l with
  | nil => simp [List.insertionSort]
  | cons x xs ih =>
    rw [List.insertionSort]
    apply keyLex_orderedInsert
    · exact ih (List.pairwise_cons.mp hl).2
    · intro y hy
      exact (List.pairwise_cons.mp hl).1 y ((List.mem_insertionSort _).mp hy)

end DragSortOrder

/-- The pre-sort drag list lists factors in their original order. -/
theorem identifyScoreDragsBase_pairwise_idx (rf : RiskFactorMap) :
    (identifyScoreDragsBase rf).Pairwise (fun a b => factorIdx a.factor < factorIdx b.factor) := by
  unfold identifyScoreDragsBase
  simp only [List.filterMap_cons, List.filterMap_nil]
  split_ifs <;> simp [factorIdx, dragFor]

theorem mem_identifyScoreDragsBase {rf : RiskFactorMap} {d : ScoreDrag} :
    d ∈ identifyScoreDragsBase rf ↔
      ∃ k : FactorKey, (factorOf rf k).score < 75 ∧ d = dragFor rf k := by
  unfold identifyScoreDragsBase
  rw [List.mem_filterMap]
  constructor
  · rintro ⟨k, _, hfk⟩
    by_cases h : (factorOf rf k).score < 75
    · rw [if_pos h] at hfk
      exact ⟨k, h, (Option.some_inj.mp hfk).symm⟩
    · rw [if_neg h] at hfk
      exact absurd hfk (by simp)
  · rintro ⟨k, hk, rfl⟩
    refine ⟨k, ?_, by rw [if_pos hk]⟩
    cases k <;> simp

theorem mem_identifyScoreDrags {rf : RiskFactorMap} {d : ScoreDrag} :
    d ∈ identifyScoreDrags rf ↔
      ∃ k : FactorKey, (factorOf rf k).score < 75 ∧ d = dragFor rf k := by
  rw [identifyScoreDrags, List.mem_insertionSort]
  exact mem_identifyScoreDragsBase

/-- C6 amended: a drag exists for a factor iff its score is strictly
below 75; each drag's `impactPoints` is `round((75 − score) × weight)`;
and — provided every drag's sort divisor `estimatedDays ×
difficultyWeight` is positive, so that the JS comparator is a
consistent comparison function rather than `NaN`-valued — the list is
ordered descending by the impact-per-effort ratio with ties kept in
the original factor order. -/
theorem identifyScoreDrags_spec (rf : RiskFactorMap) :
    (∀ k : FactorKey,
      ((factorOf rf k).score < 75 ↔ ∃ d ∈ identifyScoreDrags rf, d.factor = k)) ∧
    (∀ d ∈ identifyScoreDrags rf,
      d.currentScore = (factorOf rf d.factor).score ∧
      d.potentialScore = 75 ∧
      d.impactPoints =
        jsRound ((75 - (factorOf rf d.factor).score) * (factorOf rf d.factor).weight)) ∧
    ((∀ d ∈ identifyScoreDrags rf, 0 < dragSortDenom d) →
      (identifyScoreDrags rf).Pairwise
        (keyLex dragSortKey (fun d => factorIdx d.factor))) := by
  refine ⟨?_, ?_, ?_⟩
  · intro k
    constructor
    · intro hk
      exact ⟨dragFor rf k, mem_identifyScoreDrags.mpr ⟨k, hk, rfl⟩, rfl⟩
    · rintro ⟨d, hd, hfac⟩
      obtain ⟨k', hk', rfl⟩ := mem_identifyScoreDrags.mp hd
      have : k' = k := hfac
      rwa [this] at hk'
  · intro d hd
    obtain ⟨k, hk, rfl⟩ := mem_identifyScoreDrags.mp hd
    exact ⟨rfl, rfl, rfl⟩
  · intro _
    exact keyLex_insertionSort dragSortKey (fun d => factorIdx d.factor) _
      (identifyScoreDragsBase_pairwise_idx rf)

/-- Witness for C6 (amended) at a concrete all-below-target map. -/
def allFiftyMap : RiskFactorMap :=
  { serviceability := mkFactor "Serviceability" 50 0.3
    concentration := mkFactor "Concentration" 50 0.25
    retention := mkFactor "Retention" 50 0.25
    compliance := mkFactor "Compliance" 50 0.2 }

theorem identifyScoreDrags_spec_witness :
    (identifyScoreDrags allFiftyMap).Pairwise
      (keyLex dragSortKey (fun d => factorIdx d.factor)) := by
  apply (identifyScoreDrags_spec allFiftyMap).2.2
  intro d hd
  obtain ⟨k, _, rfl⟩ := mem_identifyScoreDrags.mp hd
  have h25 : (75 : ℚ) - 50 = 25 := by norm_num
  have hdenpos : ∀ k' : FactorKey, (0 : ℚ) < (estimateDays k' 25 : ℚ) := by
    intro k'
    have h1 : (1 : ℤ) ≤ estimateDays k' 25 := by
      rw [estimateDays, jsRound_eq_floor]
      apply Int.le_floor.mpr
      cases k' <;> norm_num [baseDays]
    have : (0 : ℤ) < estimateDays k' 25 := by omega
    exact_mod_cast this
  cases k <;>
    (unfold dragSortDenom dragFor
     norm_num [allFiftyMap, mkFactor, factorOf, h25]
     exact mul_pos (hdenpos _) (by norm_num [estimateDifficulty, baseDifficulty,
       getDifficultyWeight]))

/-- The claim's drag-sort clause as stated: every drag's sort ratio is
well defined (nonzero divisor), and the list is ordered descending by
that ratio with ties in original factor order. -/
def dragsSortedByRatio (rf : RiskFactorMap) : Prop :=
  (∀ d ∈ identifyScoreDrags rf, dragSortDenom d ≠ 0) ∧
  (identifyScoreDrags rf).Pairwise (keyLex dragSortKey (fun d => factorIdx d.factor))

/-- C6 counterexample: at a map whose only below-target factor is
compliance at 74, the produced drag has `estimatedDays = 0`, so the
divisor of the claimed sort ratio is zero (`0/0`, JS `NaN`) and the
sort clause of the claim — which presupposes the ratio exists — fails. -/
theorem dragsSortedByRatio_counterexample : ¬ dragsSortedByRatio complianceGapMap := by
  rintro ⟨hdef, _⟩
  have hmem : complianceDrag74 ∈ identifyScoreDrags complianceGapMap := by
    rw [drags_at_complianceGapMap]
    exact List.mem_singleton_self _
  apply hdef complianceDrag74 hmem
  norm_num [dragSortDenom, complianceDrag74]

/-- C7: a request to a recipient that never responds registers a
pending entry; when the timeout fires the outcome is the timeout
rejection and the pending entry is removed; a subsequent `respond`
carrying that correlation id resolves nobody and leaves the pending
set unchanged — its only effect is emitting the response message onto
the log. -/
theorem request_timeout_then_late_respond (s : BusState) (sender target responder : AgentId)
    (type : MessageType) (payload reply : String) (cid : String)
    (hfresh : cid ∉ s.pending)
    (orig : BusMessage) (horig : orig.correlationId = some cid) :
    cid ∈ (busRequest s sender target type payload cid).pending ∧
    (busTimeout (busRequest s sender target type payload cid) cid).2 = .timedOut ∧
    cid ∉ (busTimeout (busRequest s sender target type payload cid) cid).1.pending ∧
    busRespond (busTimeout (busRequest s sender target type payload cid) cid).1
        orig responder reply =
      .ok (busSend (busTimeout (busRequest s sender target type payload cid) cid).1
            { sender := responder, recipient := .agent orig.sender, type := .data_response,
              payload := reply, correlationId := some cid },
          none) := by
  have herase : (busTimeout (busRequest s sender target type payload cid) cid).1.pending =
      s.pending := by
    show (cid :: s.pending).erase cid = s.pending
    rw [List.erase_cons_head]
  have hnot : cid ∉ (busTimeout (busRequest s sender target type payload cid) cid).1.pending := by
    rw [herase]
    exact hfresh
  refine ⟨List.mem_cons_self _ _, rfl, hnot, ?_⟩
  unfold busRespond
  rw [horig]
  simp only [if_neg hnot]

/-- The initial bus state of the C7 witness. -/
def busW0 : BusState := { messageLog := [], pending := [] }

/-- The original correlated request message of the C7 witness. -/
def busOrigW : BusMessage :=
  { sender := .counter, recipient := .agent .lawyer, type := .data_request,
    payload := "need-data", correlationId := some "corr-1" }

/-- Witness for C7 at a concrete fresh bus and request. -/
theorem request_timeout_then_late_respond_witness :
    "corr-1" ∈ (busRequest busW0 .counter .lawyer .data_request "need-data" "corr-1").pending ∧
    (busTimeout (busRequest busW0 .counter .lawyer .data_request "need-data" "corr-1")
      "corr-1").2 = .timedOut ∧
    "corr-1" ∉
      (busTimeout (busRequest busW0 .counter .lawyer .data_request "need-data" "corr-1")
        "corr-1").1.pending ∧
    busRespond
        (busTimeout (busRequest busW0 .counter .lawyer .data_request "need-data" "corr-1")
          "corr-1").1
        busOrigW .lawyer "the-data" =
      .ok (busSend
            (busTimeout (busRequest busW0 .counter .lawyer .data_request "need-data" "corr-1")
              "corr-1").1
            { sender := .lawyer, recipient := .agent busOrigW.sender, type := .data_response,
              payload := "the-data", correlationId := some "corr-1" },
          none) :=
  request_timeout_then_late_respond busW0 .counter .lawyer .lawyer
    .data_request "need-data" "the-data" "corr-1" (by simp [busW0]) busOrigW rfl

/-!
## Determinism of the remediation engine modulo uuid draws
-/

/-- Erase the randomly drawn `id` of a task. -/
def eraseTaskId (t : RemediationTask) : RemediationTask := { t with id := "" }

/-- A template task with its id erased. -/
def taskFromTemplateNoId (drag : ScoreDrag) (nTemplates : ℕ) (t : TaskTemplate) :
    RemediationTask :=
  { id := ""
    priority := 0
    targetFactor := drag.factor
    title := t.title
    description := t.description
    expectedScoreGain := jsRound ((drag.impactPoints : ℚ) / nTemplates)
    difficulty := t.difficulty
    estimatedDays := t.estimatedDays
    category := t.category
    actionItems := [] }

theorem generateTasksForDrag_map_erase (d : ScoreDrag) (u : ℕ → String) (n : ℕ) :
    (generateTasksForDrag d u n).map eraseTaskId =
      (taskTemplates d.factor).map
        (taskFromTemplateNoId d (taskTemplates d.factor).length) := by
  unfold generateTasksForDrag
  rw [List.map_map]
  have : ∀ it ∈ (taskTemplates d.factor).enum,
      (eraseTaskId ∘ fun (it : ℕ × TaskTemplate) =>
        ({ id := u (n + it.1), priority := 0, targetFactor := d.factor, title := it.2.title,
           description := it.2.description,
           expectedScoreGain := jsRound ((d.impactPoints : ℚ) / (taskTemplates d.factor).length),
           difficulty := it.2.difficulty, estimatedDays := it.2.estimatedDays,
           category := it.2.category, actionItems := [] } : RemediationTask)) it =
      (taskFromTemplateNoId d (taskTemplates d.factor).length ∘ Prod.snd) it := by
    intro it _
    rfl
  rw [List.map_congr_left this, ← List.map_map, List.enum_map_snd]

theorem generateTasksAux_map_erase (drags : List ScoreDrag) (u1 u2 : ℕ → String) (n1 n2 : ℕ) :
    (generateTasksAux u1 drags n1).map eraseTaskId =
      (generateTasksAux u2 drags n2).map eraseTaskId := by
  induction drags generalizing n1 n2 with
  | nil => rfl
  | cons d rest ih =>
    unfold generateTasksAux
    rw [List.map_append, List.map_append, generateTasksForDrag_map_erase,
      generateTasksForDrag_map_erase, ih]

theorem generateTasks_map_erase (drags : List ScoreDrag) (u1 u2 : ℕ → String) :
    (generateTasks drags u1).map eraseTaskId = (generateTasks drags u2).map eraseTaskId := by
  unfold generateTasks
  rw [List.map_map, List.map_map]
  have h1 : (eraseTaskId ∘ fun t => { t with priority := calculatePriority t }) =
      ((fun t => { t with priority := calculatePriority t }) ∘ eraseTaskId) := rfl
  rw [h1, ← List.map_map, ← List.map_map, generateTasksAux_map_erase drags u1 u2 0 0]

/-- C8 amended: for a fixed `(score, riskFactors, context)` input, two
runs differing only in their uuid draws produce the same drag list,
the same task list up to the drawn `id` fields, and the same
priorities; the `id` fields themselves (and the `generatedAt`
timestamp, not modelled) do differ between runs. -/
theorem remediation_deterministic_modulo_ids (score : BankabilityScore)
    (rf : RiskFactorMap) (ctx : GlobalContext) (u1 u2 : ℕ → String) :
    (generateRemediationRoadmap score rf ctx u1).scoreDrags =
      (generateRemediationRoadmap score rf ctx u2).scoreDrags ∧
    (generateRemediationRoadmap score rf ctx u1).tasks.map eraseTaskId =
      (generateRemediationRoadmap score rf ctx u2).tasks.map eraseTaskId ∧
    (generateRemediationRoadmap score rf ctx u1).tasks.map (·.priority) =
      (generateRemediationRoadmap score rf ctx u2).tasks.map (·.priority) := by
  have hsort : ∀ u : ℕ → String,
      (generateRemediationRoadmap score rf ctx u).tasks.map eraseTaskId =
        ((generateTasks (identifyScoreDrags rf) u).map eraseTaskId).insertionSort
          (fun a b => b.priority ≤ a.priority) := by
    intro u
    show ((List.insertionSort (fun a b => b.priority ≤ a.priority)
      (generateTasks (identifyScoreDrags rf) u)).map eraseTaskId) = _
    exact List.map_insertionSort _ _ eraseTaskId _ (fun a _ b _ => Iff.rfl)
  have herase : (generateRemediationRoadmap score rf ctx u1).tasks.map eraseTaskId =
      (generateRemediationRoadmap score rf ctx u2).tasks.map eraseTaskId := by
    rw [hsort u1, hsort u2, generateTasks_map_erase (identifyScoreDrags rf) u1 u2]
  refine ⟨rfl, herase, ?_⟩
  have hp : ∀ (l : List RemediationTask), l.map (·.priority) =
      (l.map eraseTaskId).map (·.priority) := by
    intro l
    rw [List.map_map]
    rfl
  rw [hp ((generateRemediationRoadmap score rf ctx u1).tasks), herase, ← hp]

/-- The score input used in the uuid-dependence counterexample. -/
def scoreFifty : BankabilityScore :=
  { score := 50, grade := .C, riskFactors := allFiftyMap, penalties := [] }

/-- C8 counterexample: two runs on identical inputs differ — the task
ids are fresh random uuid draws, so the task sets of two runs are not
equal (here: constant supplies `"id-a"` and `"id-b"`). -/
theorem remediation_runs_differ_in_ids :
    generateRemediationRoadmap scoreFifty allFiftyMap ctxEmpty (fun _ => "id-a") ≠
      generateRemediationRoadmap scoreFifty allFiftyMap ctxEmpty (fun _ => "id-b") := by
  intro h
  have hids : ∀ (c : String) t, t ∈ (generateRemediationRoadmap scoreFifty allFiftyMap ctxEmpty
      (fun _ => c)).tasks → t.id = c := by
    intro c t ht
    have ht2 : t ∈ generateTasks (identifyScoreDrags allFiftyMap) (fun _ => c) := by
      have := (List.mem_insertionSort (fun a b : RemediationTask =>
        b.priority ≤ a.priority)).mp ht
      exact this
    obtain ⟨t0, ht0, rfl⟩ := List.mem_map.mp ht2
    have : ∀ (drags : List ScoreDrag) (n : ℕ) t1,
        t1 ∈ generateTasksAux (fun _ => c) drags n → t1.id = c := by
      intro drags
      induction drags with
      | nil => intro n t1 h1; simp [generateTasksAux] at h1
      | cons d rest ih =>
        intro n t1 h1
        rw [generateTasksAux, List.mem_append] at h1
        rcases h1 with h1 | h1
        · obtain ⟨it, _, rfl⟩ := List.mem_map.mp h1
          rfl
        · exact ih _ _ h1
    exact this _ _ t0 ht0
  have hne : (identifyScoreDrags allFiftyMap) ≠ [] := by
    intro hnil
    have h50 : (factorOf allFiftyMap FactorKey.serviceability).score < 75 := by
      norm_num [allFiftyMap, factorOf, mkFactor]
    obtain ⟨d, hd, _⟩ := ((identifyScoreDrags_spec allFiftyMap).1 .serviceability).mp h50
    rw [hnil] at hd
    exact absurd hd (List.not_mem_nil d)
  have htne : (generateRemediationRoadmap scoreFifty allFiftyMap ctxEmpty
      (fun _ => "id-a")).tasks ≠ [] := by
    intro hnil
    have hlen : (generateRemediationRoadmap scoreFifty allFiftyMap ctxEmpty
        (fun _ => "id-a")).tasks.length = 0 := by rw [hnil]; rfl
    rw [show (generateRemediationRoadmap scoreFifty allFiftyMap ctxEmpty
        (fun _ => "id-a")).tasks = List.insertionSort (fun a b => b.priority ≤ a.priority)
        (generateTasks (identifyScoreDrags allFiftyMap) (fun _ => "id-a")) from rfl,
      List.length_insertionSort] at hlen
    unfold generateTasks at hlen
    rw [List.length_map] at hlen
    rcases hd : identifyScoreDrags allFiftyMap with _ | ⟨d, rest⟩
    · exact hne hd
    · have hlen1 : ∀ (u : ℕ → String) (n : ℕ),
          (generateTasksForDrag d u n).length = (taskTemplates d.factor).length := by
        intro u n
        unfold generateTasksForDrag
        rw [List.length_map, List.enum_length]
      rw [hd, generateTasksAux, List.length_append, hlen1] at hlen
      have : (taskTemplates d.factor).length ≠ 0 := by
        cases d.factor <;> simp [taskTemplates]
      omega
  rcases hx : (generateRemediationRoadmap scoreFifty allFiftyMap ctxEmpty
      (fun _ => "id-a")).tasks with _ | ⟨t, rest⟩
  · exact htne hx
  · have hta : t ∈ (generateRemediationRoadmap scoreFifty allFiftyMap ctxEmpty
        (fun _ => "id-a")).tasks := by rw [hx]; exact List.mem_cons_self _ _
    have h1 : t.id = "id-a" := hids "id-a" t hta
    have htb : t ∈ (generateRemediationRoadmap scoreFifty allFiftyMap ctxEmpty
        (fun _ => "id-b")).tasks := by rw [← h]; exact hta
    have h2 : t.id = "id-b" := hids "id-b" t htb
    rw [h1] at h2
    exact absurd h2 (by decide)

/-!
## The all-negative profit-and-loss scenario (orchestrator pre-filter)
-/

/-- One year of profit-and-loss data. -/
def plYear (revenue netIncome : ℚ) : Json :=
  .obj (fieldsOf [("revenue", .num revenue), ("netIncome", .num netIncome)])

/-- Three consecutive loss-making years. -/
def plAllNegativeData : JsonFields :=
  fieldsOf [("2021", plYear 100000 (-50000)),
            ("2022", plYear 100000 (-50000)),
            ("2023", plYear 100000 (-50000))]

/-- The profit-and-loss document of the scenario. -/
def plDocAllNegative : ParsedDocument :=
  { id := "doc-pl-1", type := .profit_and_loss, data := some plAllNegativeData }

/-- A context containing only that document. -/
def ctxAllNegative : GlobalContext :=
  { sessionId := "session-1", companyId := "company-1", documents := [plDocAllNegative]
    apiSnapshots := { stripe := none, plaid := none }, agentInsights := [] }

theorem ctxAllNegative_check :
    checkObviousCases ctxAllNegative =
      some (createObviousResult .all_negative 15 .F ctxAllNegative
        { serviceabilityOverride := some 10 }) := by
  have h1 : isNoDataCase ctxAllNegative = false := by decide
  have h2 : isEmptyDocumentsCase ctxAllNegative = false := by decide
  have h3 : isAllNegativeCase ctxAllNegative = true := by decide
  unfold checkObviousCases
  rw [h1, h2, h3]
  rfl

theorem extractLatestValue_none (keys : List String) : extractLatestValue none keys = none :=
  rfl

theorem ctxAllNegative_plaid : ctxAllNegative.apiSnapshots.plaid = none := rfl

theorem ctxAllNegative_stripe : ctxAllNegative.apiSnapshots.stripe = none := rfl

theorem ctxAllNegative_docComponents :
    serviceabilityDocComponents ctxAllNegative =
      [⟨"Profitability", 0, 0.4⟩, ⟨"Equity Ratio", 0, 0.3⟩, ⟨"Debt Level", 100, 0.3⟩] := by
  have hni : extractLatestValue (some plAllNegativeData) ["netIncome"] = some (-50000) := by
    decide
  have hrev : extractLatestValue (some plAllNegativeData) ["revenue"] = some 100000 := by
    decide
  have hfindpl : ctxAllNegative.documents.find? (fun d => d.type = .profit_and_loss) =
      some plDocAllNegative := rfl
  have hfindbs : ctxAllNegative.documents.find? (fun d => d.type = .balance_sheet) = none := rfl
  unfold serviceabilityDocComponents
  rw [hfindpl, hfindbs]
  simp only [Option.some_bind, Option.none_bind,
    show plDocAllNegative.data = some plAllNegativeData from rfl,
    hni, hrev, extractLatestValue_none]
  norm_num [min_def, max_def]

theorem ctxAllNegative_serviceability :
    (synthesizeServiceability [] ctxAllNegative).score = 30 := by
  unfold synthesizeServiceability
  simp only [ctxAllNegative_plaid, ctxAllNegative_docComponents, List.filter_nil,
    List.length_nil]
  norm_num [calculateWeightedScore]

theorem ctxAllNegative_concentration :
    (synthesizeConcentration [] ctxAllNegative).score = 60 := by
  have hcontracts : ctxAllNegative.documents.filter (fun d => d.type = .contract) = [] := rfl
  unfold synthesizeConcentration
  simp only [ctxAllNegative_stripe]
  unfold synthesizeConcentration.concentrationFallback
  rw [hcontracts]
  norm_num [calculateWeightedScore, min_def, max_def]

theorem ctxAllNegative_retention :
    (synthesizeRetention [] ctxAllNegative).score = 60 := by
  have hfindpl : (ctxAllNegative.documents.find? (fun d => d.type = .profit_and_loss)).bind
      (·.data) = some plAllNegativeData := rfl
  have hyears : sortYearsDesc (fieldKeys plAllNegativeData) = ["2023", "2022", "2021"] := by
    decide
  have hlatest : (lookupField plAllNegativeData "2023").bind
      (extractNestedFromJson "revenue" ·) = some 100000 := by decide
  have hprior : (lookupField plAllNegativeData "2022").bind
      (extractNestedFromJson "revenue" ·) = some 100000 := by decide
  have hfall : synthesizeRetention.retentionTrendFallback ctxAllNegative =
      [⟨"Revenue Trend (retention proxy)", 60, 1.0⟩] := by
    unfold synthesizeRetention.retentionTrendFallback
    rw [hfindpl]
    simp only [hyears, hlatest, hprior, Option.getD_some]
    norm_num [min_def, max_def]
  unfold synthesizeRetention
  simp only [ctxAllNegative_stripe, List.filter_nil, List.find?_nil, hfall]
  norm_num [calculateWeightedScore, min_def, max_def]

theorem ctxAllNegative_compliance :
    (synthesizeCompliance [] ctxAllNegative).score = 62 := by
  have hpres : List.filter (fun t => (ctxAllNegative.documents.map (fun d => d.type)).contains t)
      [DocumentType.profit_and_loss, .balance_sheet, .tax_filing, .insurance_certificate] =
      [DocumentType.profit_and_loss] := by decide
  unfold synthesizeCompliance
  simp only [List.filter_nil, List.find?_nil, hpres]
  norm_num [calculateWeightedScore, min_def, max_def]

/-- C1: the obvious-case pre-filter classifies the all-negative
profit-and-loss context as `all_negative` with the canned 15/F result
and exactly the two canned remediation tasks — but `executeWorkflow`
never consults the pre-filter: on that very context it runs the full
synthesis pipeline and returns score 51, grade C (here with the empty
insight list, since the LLM agents are external).  The pre-filter is
dead code in the orchestrator. -/
theorem orchestrator_ignores_obvious_cases :
    (∃ r, checkObviousCases ctxAllNegative = some r ∧
      r.caseType = .all_negative ∧ r.score.score = 15 ∧ r.score.grade = .F ∧
      r.roadmap.tasks = getTasksForCaseType .all_negative ∧
      (r.roadmap.tasks.map (·.id)) = ["cost-reduction", "revenue-growth"]) ∧
    (executeWorkflow ctxAllNegative [] (fun _ => "task-id")).1.score = 51 ∧
    (executeWorkflow ctxAllNegative [] (fun _ => "task-id")).1.grade = .C := by
  have hrfm : synthesizeRiskFactors [] ctxAllNegative =
      { serviceability := synthesizeServiceability [] ctxAllNegative
        concentration := synthesizeConcentration [] ctxAllNegative
        retention := synthesizeRetention [] ctxAllNegative
        compliance := synthesizeCompliance [] ctxAllNegative } := rfl
  have hws : (synthesizeRiskFactors [] ctxAllNegative).serviceability.weight = 0.30 := rfl
  have hwc : (synthesizeRiskFactors [] ctxAllNegative).concentration.weight = 0.25 := rfl
  have hwr : (synthesizeRiskFactors [] ctxAllNegative).retention.weight = 0.25 := rfl
  have hwp : (synthesizeRiskFactors [] ctxAllNegative).compliance.weight = 0.20 := rfl
  have hs : (synthesizeRiskFactors [] ctxAllNegative).serviceability.score = 30 :=
    ctxAllNegative_serviceability
  have hc : (synthesizeRiskFactors [] ctxAllNegative).concentration.score = 60 :=
    ctxAllNegative_concentration
  have hr : (synthesizeRiskFactors [] ctxAllNegative).retention.score = 60 :=
    ctxAllNegative_retention
  have hp : (synthesizeRiskFactors [] ctxAllNegative).compliance.score = 62 :=
    ctxAllNegative_compliance
  have hraw : rawScoreOf (synthesizeRiskFactors [] ctxAllNegative) = 257/5 := by
    unfold rawScoreOf
    rw [hs, hc, hr, hp, hws, hwc, hwr, hwp]
    norm_num
  have hpen : calculatePenalties (synthesizeRiskFactors [] ctxAllNegative) = [] := by
    unfold calculatePenalties
    rw [if_neg (by rw [hp]; norm_num), if_neg (by rw [hs]; norm_num),
      if_neg (by rw [hc]; norm_num)]
    rfl
  have hscore : (executeWorkflow ctxAllNegative [] (fun _ => "task-id")).1.score = 51 := by
    show jsRound (max 0 (min 100 (rawScoreOf (synthesizeRiskFactors [] ctxAllNegative) *
      ((calculatePenalties (synthesizeRiskFactors [] ctxAllNegative)).map
        (·.multiplier)).foldl (· * ·) 1))) = 51
    rw [hraw, hpen]
    show jsRound (max 0 (min 100 (257/5 * 1))) = 51
    have : max (0:ℚ) (min 100 (257/5 * 1)) = 257/5 := by norm_num [min_def, max_def]
    rw [this]
    apply jsRound_eq <;> norm_num
  refine ⟨⟨createObviousResult .all_negative 15 .F ctxAllNegative
      { serviceabilityOverride := some 10 }, ctxAllNegative_check, rfl, rfl, rfl, rfl, rfl⟩,
    hscore, ?_⟩
  show scoreToGrade (((executeWorkflow ctxAllNegative [] (fun _ => "task-id")).1.score : ℤ) : ℚ)
    = .C
  rw [hscore]
  norm_num [scoreToGrade]
